import Mathlib

/-!
Shallow embedding, in Lean 4, of the Line Rider userscript mods
(linerider-userscript-mods).  Each section models one source file's
claim-relevant functions; JS numbers are modelled as exact rationals
(all arithmetic the claims touch is +, -, * on small values, where IEEE
doubles are exact), JS object references are modelled by explicit
numeric identity tags, and fallible code returns `Except`.
-/

/-! ## Gravity API — src/mods/line-rider-gravity-api.user.js -/

/-- Two-dimensional vector with exact rational coordinates. -/
structure V2q where
  x : ℚ
  y : ℚ
  deriving DecidableEq, Repr

/-- Source line 26: `const DEFAULT_GRAVITY = { x: 0, y: 0.175 }` (0.175 = 7/40). -/
def DEFAULT_GRAVITY : V2q := ⟨0, 7/40⟩

/-- Source line 27: `const FRAMES_PER_SECOND = 40`. -/
def FRAMES_PER_SECOND : Int := 40

/-- Source lines 95-101: `timestampToFrames([minutes, seconds, remainingFrames])`. -/
def timestampToFrames (minutes seconds remainingFrames : Int) : Int :=
  minutes * FRAMES_PER_SECOND * 60 + seconds * FRAMES_PER_SECOND + remainingFrames

/-- Keyframe time field: either a plain frame number or a
`[minutes, seconds, frames]` triple (the code tests `Array.isArray(timestamp)`). -/
inductive Timestamp where
  | frames (n : Int)
  | stamp (minutes seconds remainingFrames : Int)
  deriving DecidableEq, Repr

/-- Source lines 381-383: `Array.isArray(timestamp) ? timestampToFrames(timestamp) : timestamp`. -/
def Timestamp.toFrames : Timestamp → Int
  | .frames n => n
  | .stamp m s f => timestampToFrames m s f

/-- An effect function, receiving (from the spread context) the frame index, the
global contact-point index and the chained `lastGravity`; the remaining context
fields (rider data etc.) do not influence any claim and are not modelled. -/
def GravityFn : Type := Int → Nat → Option V2q → V2q

/-- One keyframe entry `[timestamp, cps, gravityFn, computed]` as consumed by
`getGravityForContactPoint` (source line 380). -/
structure Keyframe where
  timestamp : Timestamp
  cps : List Nat
  gravityFn : GravityFn
  computed : Bool

/-- Loop body of `getGravityForContactPoint` (source lines 378-404): `break` on a
future timestamp, `continue` when the contact point is not listed, otherwise
apply the effect function to the chained `lastGravity` and set `found`.  The
source's `if (computed)` branches are textually identical; both are kept. -/
def gravityLoop (frameIndex : Int) (globalCpIndex : Nat) :
    List Keyframe → Option V2q → Bool → Option V2q × Bool
  | [], lastGravity, found => (lastGravity, found)
  | kf :: rest, lastGravity, found =>
    if kf.timestamp.toFrames > frameIndex then (lastGravity, found)
    else if !(kf.cps.contains globalCpIndex) then
      gravityLoop frameIndex globalCpIndex rest lastGravity found
    else
      let g :=
        if kf.computed then kf.gravityFn frameIndex globalCpIndex lastGravity
        else kf.gravityFn frameIndex globalCpIndex lastGravity
      gravityLoop frameIndex globalCpIndex rest (some g) true

/-- Source lines 372-406: `getGravityForContactPoint({keyframes, frameIndex,
globalCpIndex, context})`; returns `found ? lastGravity : DEFAULT_GRAVITY`
(`none` models the JS `undefined` that `lastGravity` starts as). -/
def getGravityForContactPoint (keyframes : List Keyframe) (frameIndex : Int)
    (globalCpIndex : Nat) : Option V2q :=
  match gravityLoop frameIndex globalCpIndex keyframes none false with
  | (lastGravity, found) => if found then lastGravity else some DEFAULT_GRAVITY

/-- Specification-side predicate: a keyframe matches frame `f` and contact point
`c` when its time is not in the future and its point list contains `c`. -/
def matchesAt (f : Int) (c : Nat) (kf : Keyframe) : Bool :=
  decide (kf.timestamp.toFrames ≤ f) && kf.cps.contains c

/-- Specification-side helper: the keyframes matching frame `f` and point `c`,
in list order. -/
def matchingKeyframes (kfs : List Keyframe) (f : Int) (c : Nat) : List Keyframe :=
  kfs.filter (matchesAt f c)

/-- Specification-side helper: apply every effect function in order, each
receiving the previous result as `lastGravity`, starting from `undefined`. -/
def chainEffects (f : Int) (c : Nat) (kfs : List Keyframe) : Option V2q :=
  kfs.foldl (fun acc kf => some (kf.gravityFn f c acc)) none

/-! ## Gravity API, part_001 variant — src/unnamed/part_001 lines 1063-1111 -/

/-- Gravity value as produced by a part_001 effect function; `isDefaultFlag`
models the `__default` marker property the evaluator checks. -/
structure GravityD where
  x : ℚ
  y : ℚ
  isDefaultFlag : Bool
  deriving DecidableEq, Repr

/-- Part_001 effect function: receives frame index, global contact-point index,
`lastGravity` and `lastDefaultGravity`; may return a non-object (`none`). -/
def GravityFnV2 : Type := Int → Nat → Option GravityD → Option V2q → Option GravityD

/-- One keyframe entry as consumed by the part_001 evaluator (it destructures
only `[timestamp, cps, gravityFn]`). -/
structure KeyframeV2 where
  timestamp : Timestamp
  cps : List Nat
  gravityFn : GravityFnV2

/-- Loop body of the part_001 `getGravityForContactPoint` (lines 1069-1104);
additionally tracks `lastDefaultGravity` from results carrying the `__default`
marker.  The null-value guard (lines 1092-1101) only logs and is not modelled. -/
def gravityLoopV2 (frameIndex : Int) (globalCpIndex : Nat) :
    List KeyframeV2 → Option GravityD → Option V2q → Bool →
      Option GravityD × Option V2q × Bool
  | [], lastGravity, lastDefaultGravity, found => (lastGravity, lastDefaultGravity, found)
  | kf :: rest, lastGravity, lastDefaultGravity, found =>
    if kf.timestamp.toFrames > frameIndex then (lastGravity, lastDefaultGravity, found)
    else if !(kf.cps.contains globalCpIndex) then
      gravityLoopV2 frameIndex globalCpIndex rest lastGravity lastDefaultGravity found
    else
      let g := kf.gravityFn frameIndex globalCpIndex lastGravity lastDefaultGravity
      let lastDefault2 :=
        match g with
        | some gv => if gv.isDefaultFlag then some ⟨gv.x, gv.y⟩ else lastDefaultGravity
        | none => lastDefaultGravity
      gravityLoopV2 frameIndex globalCpIndex rest g lastDefault2 true

/-- Error message thrown by the part_001 evaluator when no keyframe matched
(source lines 1105-1109). -/
def noKeyframeFoundMsg : String :=
  "No gravity keyframe found. Please begin your gravity keyframes with \"setGravityKeyframes\" that targets all contact points."

/-- Part_001 variant of `getGravityForContactPoint` (lines 1063-1111): throws
when no keyframe matched, otherwise returns the chained `lastGravity`. -/
def getGravityForContactPointV2 (keyframes : List KeyframeV2) (frameIndex : Int)
    (globalCpIndex : Nat) : Except String (Option GravityD) :=
  match gravityLoopV2 frameIndex globalCpIndex keyframes none none false with
  | (lastGravity, _, found) =>
    if found then Except.ok lastGravity else Except.error noKeyframeFoundMsg

/-! ## Lemmas about the gravity evaluators -/

/-- The sortedness order setGravityKeyframes establishes (sort by `a[0] - b[0]`,
source lines 433-435), read on converted frame numbers. -/
def keyframeLE (a b : Keyframe) : Prop :=
  a.timestamp.toFrames ≤ b.timestamp.toFrames

theorem gravityLoop_eq_chain (f : Int) (c : Nat) :
    ∀ (kfs : List Keyframe) (acc : Option V2q) (found : Bool),
      List.Sorted keyframeLE kfs →
      gravityLoop f c kfs acc found =
        ((matchingKeyframes kfs f c).foldl (fun a kf => some (kf.gravityFn f c a)) acc,
          found || !(matchingKeyframes kfs f c).isEmpty)
  | [], acc, found, _ => by
      simp [gravityLoop, matchingKeyframes]
  | kf :: rest, acc, found, hs => by
      rcases List.sorted_cons.mp hs with ⟨hhead, htail⟩
      by_cases hf : kf.timestamp.toFrames > f
      · have hm : matchesAt f c kf = false := by
          have hd : decide (kf.timestamp.toFrames ≤ f) = false := by
            apply decide_eq_false; omega
          unfold matchesAt
          rw [hd, Bool.false_and]
        have hrest : List.filter (matchesAt f c) rest = [] := by
          apply List.filter_eq_nil_iff.mpr
          intro b hb
          have hle := hhead b hb
          unfold keyframeLE at hle
          have hd : decide (b.timestamp.toFrames ≤ f) = false := by
            apply decide_eq_false; omega
          unfold matchesAt
          rw [hd, Bool.false_and]
          simp
        have hall : matchingKeyframes (kf :: rest) f c = [] := by
          unfold matchingKeyframes
          rw [List.filter_cons_of_neg (by rw [hm]; simp), hrest]
        simp [gravityLoop, if_pos hf, hall]
      · by_cases hc : kf.cps.contains c
        · have hm : matchesAt f c kf = true := by
            have hd : decide (kf.timestamp.toFrames ≤ f) = true := by
              apply decide_eq_true; omega
            unfold matchesAt
            rw [hd, hc]
            rfl
          have ih := gravityLoop_eq_chain f c rest
            (some (kf.gravityFn f c acc)) true htail
          have hall : matchingKeyframes (kf :: rest) f c
              = kf :: matchingKeyframes rest f c := by
            unfold matchingKeyframes
            rw [List.filter_cons_of_pos (by rw [hm])]
          rw [hall]
          simp only [gravityLoop, if_neg hf, hc, Bool.not_true, ite_self,
            Bool.false_eq_true, if_false, List.foldl_cons, List.isEmpty_cons,
            Bool.or_true, Bool.true_or]
          rw [ih]
          simp
        · have hcb : kf.cps.contains c = false := by
            simpa using hc
          have hm : matchesAt f c kf = false := by
            unfold matchesAt
            rw [hcb, Bool.and_false]
          have ih := gravityLoop_eq_chain f c rest acc found htail
          have hall : matchingKeyframes (kf :: rest) f c
              = matchingKeyframes rest f c := by
            unfold matchingKeyframes
            rw [List.filter_cons_of_neg (by rw [hm]; simp)]
          rw [hall]
          simp only [gravityLoop, if_neg hf, hcb, Bool.not_false, if_true]
          exact ih

theorem chain_foldl_isSome (f : Int) (c : Nat) :
    ∀ (l : List Keyframe) (g : V2q),
      (l.foldl (fun acc kf => some (kf.gravityFn f c acc)) (some g)).isSome = true
  | [], _ => rfl
  | kf :: rest, g => by
      rw [List.foldl_cons]
      exact chain_foldl_isSome f c rest (kf.gravityFn f c (some g))

/-- C2: on a time-sorted keyframe list, evaluation scans in nondecreasing time
order, skips future keyframes and keyframes not listing the point, chains every
matching effect function through `lastGravity`, and the result is the value
produced by the last matching keyframe (default when none matched). -/
theorem gravity_eval_chains_matching_keyframes
    (kfs : List Keyframe) (f : Int) (c : Nat)
    (hsorted : List.Sorted keyframeLE kfs) :
    getGravityForContactPoint kfs f c
      = some ((chainEffects f c (matchingKeyframes kfs f c)).getD DEFAULT_GRAVITY) := by
  unfold getGravityForContactPoint
  rw [gravityLoop_eq_chain f c kfs none false hsorted]
  cases hm : matchingKeyframes kfs f c with
  | nil => simp [chainEffects]
  | cons a l =>
    simp only [Bool.false_or, List.isEmpty_cons, Bool.not_false, if_true]
    have hsome : ((a :: l).foldl (fun acc kf => some (kf.gravityFn f c acc)) none).isSome
        = true := by
      rw [List.foldl_cons]
      exact chain_foldl_isSome f c l (a.gravityFn f c none)
    rcases Option.isSome_iff_exists.mp hsome with ⟨v, hv⟩
    simp [chainEffects, hv]

theorem gravityLoop_no_match (f : Int) (c : Nat) :
    ∀ (kfs : List Keyframe) (acc : Option V2q) (found : Bool),
      (∀ kf ∈ kfs, kf.timestamp.toFrames > f ∨ kf.cps.contains c = false) →
      gravityLoop f c kfs acc found = (acc, found)
  | [], _, _, _ => rfl
  | kf :: rest, acc, found, h => by
      by_cases hf : kf.timestamp.toFrames > f
      · simp [gravityLoop, if_pos hf]
      · have hcb : kf.cps.contains c = false := by
          rcases h kf (List.mem_cons_self kf rest) with hfut | hcon
          · omega
          · exact hcon
        have ih := gravityLoop_no_match f c rest acc found
          (fun b hb => h b (List.mem_cons_of_mem kf hb))
        simp only [gravityLoop, if_neg hf, hcb, Bool.not_false, if_true]
        exact ih

theorem gravityLoopV2_no_match (f : Int) (c : Nat) :
    ∀ (kfs : List KeyframeV2) (acc : Option GravityD) (accDef : Option V2q) (found : Bool),
      (∀ kf ∈ kfs, kf.timestamp.toFrames > f ∨ kf.cps.contains c = false) →
      gravityLoopV2 f c kfs acc accDef found = (acc, accDef, found)
  | [], _, _, _, _ => rfl
  | kf :: rest, acc, accDef, found, h => by
      by_cases hf : kf.timestamp.toFrames > f
      · simp [gravityLoopV2, if_pos hf]
      · have hcb : kf.cps.contains c = false := by
          rcases h kf (List.mem_cons_self kf rest) with hfut | hcon
          · omega
          · exact hcon
        have ih := gravityLoopV2_no_match f c rest acc accDef found
          (fun b hb => h b (List.mem_cons_of_mem kf hb))
        simp only [gravityLoopV2, if_neg hf, hcb, Bool.not_false, if_true]
        exact ih

/-- C3 (amended): when no keyframe in the list matches the point at or before
the frame, the line-rider-gravity-api evaluator returns the fixed default
gravity {x: 0, y: 0.175}, while the part_001 evaluator instead throws the
no-keyframe-found error. -/
theorem gravity_default_when_no_match
    (kfs : List Keyframe) (kfs2 : List KeyframeV2) (f : Int) (c : Nat)
    (h1 : ∀ kf ∈ kfs, kf.timestamp.toFrames > f ∨ kf.cps.contains c = false)
    (h2 : ∀ kf ∈ kfs2, kf.timestamp.toFrames > f ∨ kf.cps.contains c = false) :
    getGravityForContactPoint kfs f c = some DEFAULT_GRAVITY ∧
      getGravityForContactPointV2 kfs2 f c = Except.error noKeyframeFoundMsg := by
  constructor
  · unfold getGravityForContactPoint
    rw [gravityLoop_no_match f c kfs none false h1]
    rfl
  · unfold getGravityForContactPointV2
    rw [gravityLoopV2_no_match f c kfs2 none none false h2]
    rfl

/-- C3 counterexample: the part_001 `getGravityForContactPoint` (cited by the
claim) at frame 0, contact point 0, with a keyframe list containing no match
(here: empty), throws the no-keyframe-found error rather than returning any
gravity value, so it does not return the default {x: 0, y: 0.175}. -/
theorem gravity_no_match_part001_throws :
    getGravityForContactPointV2 [] 0 0 = Except.error noKeyframeFoundMsg ∧
      (Except.error noKeyframeFoundMsg
        ≠ (Except.ok (some ⟨0, 7/40, false⟩) : Except String (Option GravityD))) :=
  ⟨rfl, fun h => Except.noConfusion h⟩

/-- Concrete keyframe whose time is in the future of frame 5. -/
def kfFutureEx : Keyframe := ⟨.frames 10, [0], fun _ _ _ => ⟨0, 0⟩, false⟩

/-- Concrete part_001 keyframe not listing contact point 1. -/
def kfV2Ex : KeyframeV2 := ⟨.stamp 0 0 10, [3], fun _ _ _ _ => none⟩

theorem gravity_default_when_no_match_witness :
    ((∀ kf ∈ [kfFutureEx], kf.timestamp.toFrames > 5 ∨ kf.cps.contains 1 = false) ∧
      (∀ kf ∈ [kfV2Ex], kf.timestamp.toFrames > 5 ∨ kf.cps.contains 1 = false)) ∧
      (getGravityForContactPoint [kfFutureEx] 5 1 = some DEFAULT_GRAVITY ∧
        getGravityForContactPointV2 [kfV2Ex] 5 1 = Except.error noKeyframeFoundMsg) :=
  ⟨⟨by decide, by decide⟩,
    gravity_default_when_no_match [kfFutureEx] [kfV2Ex] 5 1 (by decide) (by decide)⟩

/-- Concrete keyframe at frame 0 targeting points 0 and 17, setting gravity (1, 2). -/
def kfChainA : Keyframe := ⟨.frames 0, [0, 17], fun _ _ _ => ⟨1, 2⟩, false⟩

/-- Concrete keyframe at frame 3 targeting point 0, adding 1 to the chained x. -/
def kfChainB : Keyframe :=
  ⟨.frames 3, [0],
    fun _ _ last => match last with
      | some g => ⟨g.x + 1, g.y⟩
      | none => ⟨5, 5⟩,
    true⟩

theorem gravity_eval_chains_matching_keyframes_witness :
    List.Sorted keyframeLE [kfChainA, kfChainB] ∧
      getGravityForContactPoint [kfChainA, kfChainB] 5 0
        = some ((chainEffects 5 0
            (matchingKeyframes [kfChainA, kfChainB] 5 0)).getD DEFAULT_GRAVITY) := by
  have hsort : List.Sorted keyframeLE [kfChainA, kfChainB] := by
    simp [List.sorted_cons, keyframeLE, kfChainA, kfChainB, Timestamp.toFrames]
  exact ⟨hsort, gravity_eval_chains_matching_keyframes [kfChainA, kfChainB] 5 0 hsort⟩

/-! ## Rider Manager API — src/mods/linerider-rider-manager-api.user.js -/

/-- Rider object as the selection helpers see it: a JS object identity tag
(`oid`, modelling reference equality) plus its set of group names. -/
structure MRider where
  oid : Nat
  groups : List String
  deriving DecidableEq, Repr

/-- Source lines 235-239: `getGroup(groupName)` filters the riders whose
`groups` set has `groupName`. -/
def getGroup (allRiders : List MRider) (groupName : String) : List MRider :=
  allRiders.filter (fun r => r.groups.contains groupName)

/-- JS `Array.prototype.includes` on rider objects compares by reference. -/
def includesRider (l : List MRider) (r : MRider) : Bool :=
  l.any (fun x => x.oid == r.oid)

/-- Inner loop shared by the helpers: the block pushed for rider index `i`
(`for (let j = 0; j < groupSize; j++) contactPoints.push(i * groupSize + j)`
with `groupSize = 17`). -/
def contactBlock (i : Nat) : List Nat :=
  (List.range 17).map (fun j => i * 17 + j)

/-- Selection test of `getContactPoints` (source lines 134-137):
`groupName === null || RiderManager.getGroup(groupName).includes(rider)`. -/
def selectedAt (allRiders : List MRider) (groupName : Option String) (r : MRider) : Bool :=
  match groupName with
  | none => true
  | some g => includesRider (getGroup allRiders g) r

/-- Body of the `allRiders.forEach((rider, i) => ...)` of `getContactPoints`
(source lines 133-142), with `i` the running index. -/
def getContactPointsGo (allRiders : List MRider) (groupName : Option String) :
    Nat → List MRider → List Nat
  | _, [] => []
  | i, r :: rest =>
    (if selectedAt allRiders groupName r then contactBlock i else [])
      ++ getContactPointsGo allRiders groupName (i + 1) rest

/-- Source lines 128-145: `getContactPoints(groupName = null)`. -/
def getContactPoints (allRiders : List MRider) (groupName : Option String) : List Nat :=
  getContactPointsGo allRiders groupName 0 allRiders

/-- Source lines 255-275 (and the identical lines 732-751):
`createContactPointsArray(riders)` resolves each rider to its index in the full
rider array by reference (`indexOf`), skipping riders not found (`-1`). -/
def createContactPointsArray (allRiders riders : List MRider) : List Nat :=
  riders.bind (fun r =>
    match allRiders.findIdx? (fun x => x.oid == r.oid) with
    | some riderIndex => contactBlock riderIndex
    | none => [])

/-- Source lines 270-272 (first `createContactPointsArray`): `keepOnly(points)`
filters by membership of the global index itself:
`this.filter((point) => points.includes(point))`. -/
def keepOnlyV1 (cps points : List Nat) : List Nat :=
  cps.filter (fun point => points.contains point)

/-- Source lines 746-748 (second `createContactPointsArray`): `keepOnly(points)`
filters by the local point: `this.filter((point) => points.includes(point % 17))`. -/
def keepOnlyV2 (cps points : List Nat) : List Nat :=
  cps.filter (fun point => points.contains (point % 17))

/-! ## Multirider API RiderSelection — src/mods/skew-mod.user.js lines 483-589 -/

/-- Source line 505: `PointGroups.all = [...Array(17).keys()]`. -/
def allPoints : List Nat := List.range 17

/-- Source lines 549-557: `RiderSelection.toContactPoints(points = allPoints)`
pushes `riderIndex * 17 + cpIndex` for each rider index and each point. -/
def RiderSelection.toContactPoints (riderIndices : List Nat)
    (points : List Nat := allPoints) : List Nat :=
  riderIndices.bind (fun riderIndex => points.map (fun cpIndex => riderIndex * 17 + cpIndex))

/-- Source lines 564-569: `RiderSelection.only(points)`; the non-array throw is
ruled out by typing. -/
def RiderSelection.only (riderIndices points : List Nat) : List Nat :=
  RiderSelection.toContactPoints riderIndices points

/-! ## Contact-point lemmas -/

theorem mem_contactBlock (i c : Nat) :
    c ∈ contactBlock i ↔ ∃ p, p < 17 ∧ c = i * 17 + p := by
  simp only [contactBlock, List.mem_map, List.mem_range]
  constructor
  · rintro ⟨p, h1, h2⟩
    exact ⟨p, h1, h2.symm⟩
  · rintro ⟨p, h1, h2⟩
    exact ⟨p, h1, h2.symm⟩

theorem mem_getContactPointsGo (allRiders : List MRider) (groupName : Option String) :
    ∀ (l : List MRider) (start c : Nat),
      c ∈ getContactPointsGo allRiders groupName start l ↔
        ∃ k r, l[k]? = some r ∧ selectedAt allRiders groupName r = true ∧
          ∃ p, p < 17 ∧ c = (start + k) * 17 + p
  | [], start, c => by
      simp [getContactPointsGo]
  | r :: rest, start, c => by
      rw [getContactPointsGo, List.mem_append]
      rw [mem_getContactPointsGo allRiders groupName rest (start + 1) c]
      constructor
      · rintro (hin | ⟨k, r2, hget, hsel, p, hp, hc⟩)
        · by_cases hsel : selectedAt allRiders groupName r = true
          · rw [if_pos hsel, mem_contactBlock] at hin
            rcases hin with ⟨p, hp, hc⟩
            exact ⟨0, r, by simp, hsel, p, hp, by omega⟩
          · rw [if_neg hsel] at hin
            simp at hin
        · exact ⟨k + 1, r2, by simpa using hget, hsel, p, hp, by omega⟩
      · rintro ⟨k, r2, hget, hsel, p, hp, hc⟩
        cases k with
        | zero =>
          left
          simp only [List.getElem?_cons_zero, Option.some.injEq] at hget
          subst hget
          rw [if_pos hsel, mem_contactBlock]
          exact ⟨p, hp, by omega⟩
        | succ k =>
          right
          refine ⟨k, r2, by simpa using hget, hsel, p, hp, by omega⟩

/-- C1: under all three contact-point helpers, the rider at index `i`
contributes exactly the 17 consecutive global indices `i*17+p` for local
points `0 ≤ p < 17`. -/
theorem contact_point_stride_17
    (allRiders riders : List MRider) (groupName : Option String)
    (riderIndices : List Nat) (c : Nat) :
    (c ∈ getContactPoints allRiders groupName ↔
      ∃ i r, allRiders[i]? = some r ∧ selectedAt allRiders groupName r = true ∧
        ∃ p, p < 17 ∧ c = i * 17 + p) ∧
    (c ∈ createContactPointsArray allRiders riders ↔
      ∃ r ∈ riders, ∃ i, allRiders.findIdx? (fun x => x.oid == r.oid) = some i ∧
        ∃ p, p < 17 ∧ c = i * 17 + p) ∧
    (c ∈ RiderSelection.toContactPoints riderIndices allPoints ↔
      ∃ i ∈ riderIndices, ∃ p, p < 17 ∧ c = i * 17 + p) := by
  refine ⟨?_, ?_, ?_⟩
  · unfold getContactPoints
    rw [mem_getContactPointsGo allRiders groupName allRiders 0 c]
    simp
  · unfold createContactPointsArray
    rw [List.mem_bind]
    constructor
    · rintro ⟨r, hr, hin⟩
      cases hfi : allRiders.findIdx? (fun x => x.oid == r.oid) with
      | none => rw [hfi] at hin; simp at hin
      | some i =>
        rw [hfi, mem_contactBlock] at hin
        exact ⟨r, hr, i, hfi, hin⟩
    · rintro ⟨r, hr, i, hfi, p, hp, hc⟩
      refine ⟨r, hr, ?_⟩
      rw [hfi, mem_contactBlock]
      exact ⟨p, hp, hc⟩
  · unfold RiderSelection.toContactPoints
    rw [List.mem_bind]
    simp only [List.mem_map, allPoints, List.mem_range]
    constructor
    · rintro ⟨i, hi, p, hp, hc⟩
      exact ⟨i, hi, p, hp, hc.symm⟩
    · rintro ⟨i, hi, p, hp, hc⟩
      exact ⟨i, hi, p, hp, hc.symm⟩

/-- Concrete rider occupying index 0 of the rider array. -/
def riderZero : MRider := ⟨100, ["a"]⟩

/-- Concrete rider occupying index 1 of the rider array. -/
def riderOne : MRider := ⟨101, ["b"]⟩

/-- C8 counterexample: for the selection holding only the rider at index 1 and
P = [0] (the PEG local point), the first `keepOnly` filters by the global index
itself and returns [], while the claim requires exactly the global indices
whose local point (mod 17) is in P, namely [17]. -/
theorem keepOnly_first_version_counterexample :
    keepOnlyV1 (createContactPointsArray [riderZero, riderOne] [riderOne]) [0] = [] ∧
      keepOnlyV2 (createContactPointsArray [riderZero, riderOne] [riderOne]) [0] = [17] ∧
      ([] : List Nat) ≠ [17] := by
  refine ⟨by decide, by decide, by decide⟩

/-- C8 (amended): the second `keepOnly` and `RiderSelection.only` return exactly
the global contact-point indices whose local point — the global index modulo
17 — is a member of P, at every rider index; the first `keepOnly` instead
filters by membership of the global index itself in P, which agrees with the
local-point semantics only on the rider-0 block (all indices below 17). -/
theorem keepOnly_filters_by_local_point
    (cps points riderIndices P : List Nat) (c : Nat)
    (hP : ∀ p ∈ P, p < 17) (hcps : ∀ x ∈ cps, x < 17) :
    (c ∈ keepOnlyV2 cps points ↔ c ∈ cps ∧ c % 17 ∈ points) ∧
    (c ∈ RiderSelection.only riderIndices P ↔
      c / 17 ∈ riderIndices ∧ c % 17 ∈ P) ∧
    keepOnlyV1 cps points = keepOnlyV2 cps points := by
  refine ⟨?_, ?_, ?_⟩
  · simp [keepOnlyV2, List.mem_filter]
  · unfold RiderSelection.only RiderSelection.toContactPoints
    rw [List.mem_bind]
    simp only [List.mem_map]
    constructor
    · rintro ⟨i, hi, p, hp, hc⟩
      have hp17 : p < 17 := hP p hp
      have hdiv : c / 17 = i := by omega
      have hmod : c % 17 = p := by omega
      rw [hdiv, hmod]
      exact ⟨hi, hp⟩
    · rintro ⟨hi, hp⟩
      refine ⟨c / 17, hi, c % 17, hp, ?_⟩
      have : c % 17 < 17 := Nat.mod_lt c (by omega)
      omega
  · unfold keepOnlyV1 keepOnlyV2
    apply List.filter_congr
    intro x hx
    have : x % 17 = x := Nat.mod_eq_of_lt (hcps x hx)
    rw [this]

theorem keepOnly_filters_by_local_point_witness :
    ((∀ p ∈ [4], p < 17) ∧ (∀ x ∈ [0, 5], x < 17)) ∧
      ((21 ∈ keepOnlyV2 [0, 5] [0] ↔ 21 ∈ [0, 5] ∧ 21 % 17 ∈ [0]) ∧
        (21 ∈ RiderSelection.only [0, 1] [4] ↔
          21 / 17 ∈ [0, 1] ∧ 21 % 17 ∈ [4]) ∧
        keepOnlyV1 [0, 5] [0] = keepOnlyV2 [0, 5] [0]) :=
  ⟨⟨by decide, by decide⟩,
    keepOnly_filters_by_local_point [0, 5] [0] [0, 1] [4] 21 (by decide) (by decide)⟩

/-! ## Shared mod-controller model: store actions, tracks, rider records -/

/-- Rider record as dispatched by the rider-placing mods; JS fields absent on a
given record are modelled as `false` / `none`. -/
structure RiderRec where
  startPosition : V2q
  startVelocity : V2q
  remountable : Nat
  createdUsingMod : Bool
  key : Option String
  deriving DecidableEq, Repr

/-- Engine line: id plus endpoints, readable both as `x1..y2` (via `toJSON`)
and as `p1`/`p2` (`p2 = (x2, y2)`). -/
structure LineJ where
  lineId : Nat
  x1 : ℚ
  y1 : ℚ
  x2 : ℚ
  y2 : ℚ
  deriving DecidableEq, Repr

/-- The host's committed engine object: a JS reference identity tag `tid` plus
the content the mods read (`engine.state.riders`, `engine.state.lines.buffer`). -/
structure Track where
  tid : Nat
  riders : List RiderRec
  lines : List LineJ
  deriving DecidableEq, Repr

/-- Source (skew-mod lines 23-47 and equivalents): `track.getLine(id)` modelled
as lookup by line id; `none` models a missing line (filtered by `(l) => l`). -/
def Track.getLine (t : Track) (lineId : Nat) : Option LineJ :=
  t.lines.find? (fun l => l.lineId == lineId)

/-- Store actions the modelled mods dispatch.  `setLines` is the
`UPDATE_LINES` dispatch of the skew mod; `setEditScene` is `SET_RENDERER_SCENE`
(its scene payload involves float trigonometry and is not modelled; no claim
reads it). -/
inductive StoreAction where
  | commitTrackChanges
  | revertTrackChanges
  | setRiders (riders : List RiderRec)
  | setLines (lines : List LineJ)
  | setEditScene
  deriving DecidableEq, Repr

/-- Store state as read by RiderMod and BoshAdderMod:
`state.simulator.committedEngine`. -/
structure RiderStore where
  committedEngine : Track
  deriving DecidableEq, Repr

/-! ## Synchronized Riders Mod — src/line-rider-synchronized-riders-mod.js -/

/-- Mod configuration (the React component state handed to `onUpdate`); `sid`
is the JS reference identity of the state object. -/
structure RiderModState where
  sid : Nat
  active : Bool
  x : ℚ
  y : ℚ
  x_velocity : ℚ
  y_velocity : ℚ
  rider_count : Int
  x_offset : ℚ
  y_offset : ℚ
  deriving DecidableEq, Repr

/-- RiderMod controller fields (`this.state`, `this.track`, `this.changed`). -/
structure RiderModM where
  state : RiderModState
  track : Track
  changed : Bool
  deriving DecidableEq, Repr

/-- Constructor, source lines 42-54. -/
def RiderMod.init (store : RiderStore) (initState : RiderModState) : RiderModM :=
  { state := initState, track := store.committedEngine, changed := false }

/-- Rider-placement loop, source lines 131-146: for `0 <= i < rider_count`,
start position `(x + i*x_offset, y + i*y_offset)`. -/
def RiderMod.computeNewRiders (s : RiderModState) : List RiderRec :=
  (List.range s.rider_count.toNat).map (fun i =>
    { startPosition := ⟨s.x + (i : ℚ) * s.x_offset, s.y + (i : ℚ) * s.y_offset⟩
      startVelocity := ⟨s.x_velocity, s.y_velocity⟩
      remountable := 1
      createdUsingMod := true
      key := none })

/-- Source lines 78-149: `RiderMod.onUpdate(nextState)`.  The
`window.previewLinesInFastSelect` toggling (lines 82-88) touches only a host
flag and is not modelled.  Lines 118-126 textually repeat the two guards of
lines 107-117; they are kept (`acts2`, `ch2`) although provably no-ops. -/
def RiderMod.onUpdate (m : RiderModM) (store : RiderStore)
    (nextState : RiderModState) : RiderModM × List StoreAction :=
  let su1 := m.state.sid != nextState.sid
  let st := if su1 then nextState else m.state
  let trackChanged := st.active && (m.track.tid != store.committedEngine.tid)
  let tr := if trackChanged then store.committedEngine else m.track
  let shouldUpdate := su1 || trackChanged
  if !shouldUpdate then ({ state := st, track := tr, changed := m.changed }, [])
  else
    let acts1 : List StoreAction := if m.changed then [.revertTrackChanges] else []
    let ch1 := if m.changed then false else m.changed
    if !st.active then ({ state := st, track := tr, changed := ch1 }, acts1)
    else
      let acts2 := acts1 ++ (if ch1 then [StoreAction.revertTrackChanges] else [])
      let committed_riders := store.committedEngine.riders
      let new_riders := RiderMod.computeNewRiders st
      ({ state := st, track := tr, changed := true },
        acts2 ++ [StoreAction.setRiders (committed_riders ++ new_riders)])

/-- Source lines 70-76: `RiderMod.commit()`; the third component is the JS
return value (`false` when nothing was committed). -/
def RiderMod.commit (m : RiderModM) : RiderModM × List StoreAction × Bool :=
  if !m.changed then (m, [], false)
  else ({ m with changed := false },
    [StoreAction.commitTrackChanges, StoreAction.revertTrackChanges], true)

/-! ## Skew Mod — src/mods/skew-mod.user.js -/

/-- Skew mod configuration. -/
structure SkewState where
  sid : Nat
  active : Bool
  skewX : ℚ
  skewY : ℚ
  scale : ℚ
  scaleX : ℚ
  scaleY : ℚ
  rotate : ℚ
  deriving DecidableEq, Repr

/-- Select-tool substate the skew mod reads (`selectedPoints` is a JS Set,
modelled as a duplicate-free list in insertion order). -/
structure SelectToolState where
  selectedPoints : List Nat
  multi : Bool
  deriving DecidableEq, Repr

/-- Store state as read by the skew mod. -/
structure SkewStore where
  committedEngine : Track
  selectTool : SelectToolState
  editorZoom : ℚ
  deriving DecidableEq, Repr

/-- Source lines 323-337: `setsEqual(a, b)` — equal sizes and every member of
`a` in `b` (the `a === b` shortcut implies both). -/
def setsEqualB (a b : List Nat) : Bool :=
  a.length == b.length && a.all (fun x => b.contains x)

/-- JS `new Set(list)`: keep the first occurrence of each element, in order. -/
def jsSetOfList : List Nat → List Nat
  | [] => []
  | a :: rest => a :: jsSetOfList (rest.filter (fun x => x != a))
  termination_by l => l.length
  decreasing_by
    exact Nat.lt_succ_of_le (List.length_filter_le _ rest)

/-- Source lines 338-340: `getLinesFromPoints(points)` maps point ids to line
ids (`point >> 1`) and deduplicates. -/
def getLinesFromPoints (points : List Nat) : List Nat :=
  jsSetOfList (points.map (fun point => point / 2))

/-- Source lines 417-432: `skewLines(lines, shx, shy)`; all four new
coordinates are computed from the original endpoint values. -/
def skewLines (lines : List LineJ) (shx shy : ℚ) : List LineJ :=
  lines.map (fun line =>
    { line with
      x1 := line.x1 + shx * line.y1
      y1 := line.y1 + shy * line.x1
      x2 := line.x2 + shx * line.y2
      y2 := line.y2 + shy * line.x2 })

/-- Recompute condition of source lines 117-126: some transform parameter is
away from its identity value. -/
def SkewMod.transformActive (s : SkewState) : Bool :=
  s.scale != 1 || s.scaleX != 1 || s.scaleY != 1 ||
    s.rotate != 0 || s.skewX != 0 || s.skewY != 0

/-- Skew mod controller fields. -/
structure SkewModM where
  state : SkewState
  track : Track
  selectedPoints : List Nat
  changed : Bool
  deriving DecidableEq, Repr

/-- Constructor, source lines 57-69 (`selectedPoints` starts as `EMPTY_SET`). -/
def SkewMod.init (store : SkewStore) (initState : SkewState) : SkewModM :=
  { state := initState, track := store.committedEngine,
    selectedPoints := [], changed := false }

/-- Active-only checks of `SkewMod.onUpdate` (source lines 89-108): track
reference comparison and selected-points comparison; returns the (possibly
adopted) track cache, the track-dirty flag, the (possibly adopted) selection
and the selection-dirty flag. -/
def SkewMod.activeChecks (m : SkewModM) (store : SkewStore) (st : SkewState) :
    Track × Bool × List Nat × Bool :=
  if st.active then
    let track := store.committedEngine
    let trackChanged := m.track.tid != track.tid
    let tr := if trackChanged then track else m.track
    let selectedPoints :=
      if !store.selectTool.multi then ([] : List Nat)
      else store.selectTool.selectedPoints
    let selChanged := !(setsEqualB m.selectedPoints selectedPoints)
    let sel := if selChanged then selectedPoints else m.selectedPoints
    (tr, trackChanged, sel, selChanged)
  else (m.track, false, m.selectedPoints, false)

/-- Source lines 81-171: `SkewMod.onUpdate(nextState)`.  The bounding-box /
zoom / transform computation only feeds the `setEditScene` payload, which is
not modelled. -/
def SkewMod.onUpdate (m : SkewModM) (store : SkewStore)
    (nextState : SkewState) : SkewModM × List StoreAction :=
  let su1 := m.state.sid != nextState.sid
  let st := if su1 then nextState else m.state
  let activeChecks := SkewMod.activeChecks m store st
  let tr := activeChecks.1
  let su2 := activeChecks.2.1
  let sel := activeChecks.2.2.1
  let su3 := activeChecks.2.2.2
  let shouldUpdate := su1 || su2 || su3
  if !shouldUpdate then
    ({ state := st, track := tr, selectedPoints := sel, changed := m.changed }, [])
  else
    let acts1 : List StoreAction :=
      if m.changed then [.revertTrackChanges, .setEditScene] else []
    let ch1 := if m.changed then false else m.changed
    if st.active && !sel.isEmpty && SkewMod.transformActive st then
      let selectedLines :=
        (getLinesFromPoints sel).filterMap (fun lineId => tr.getLine lineId)
      let transformedLines := skewLines selectedLines st.skewX st.skewY
      ({ state := st, track := tr, selectedPoints := sel, changed := true },
        acts1 ++ [StoreAction.setLines transformedLines, StoreAction.setEditScene])
    else
      ({ state := st, track := tr, selectedPoints := sel, changed := ch1 }, acts1)

/-- Source lines 71-79: `SkewMod.commit()`; the JS return value is `true` or
`undefined` (there is no `return false`), modelled as `Option Bool`. -/
def SkewMod.commit (m : SkewModM) : SkewModM × List StoreAction × Option Bool :=
  if m.changed then
    ({ m with changed := false },
      [StoreAction.commitTrackChanges, StoreAction.revertTrackChanges, StoreAction.setEditScene],
      some true)
  else (m, [], none)

/-! ## Bosh Manager — src/bosh_manager.user.js (BoshAdderMod) -/

/-- BoshAdderMod configuration; `key` is a string, empty meaning falsy.  The
fields `x_init`, `y_init` and `riderCount` are mutated in place by `onUpdate`
(the state object keeps its reference identity `sid`). -/
structure BoshState where
  sid : Nat
  active : Bool
  useLastLine : Bool
  multipleRiders : Bool
  maxRiders : Int
  riderCount : Int
  x : ℚ
  y : ℚ
  x_init : ℚ
  y_init : ℚ
  x_velocity : ℚ
  y_velocity : ℚ
  multi_rider_x : Int
  multi_rider_y : Int
  x_offset : ℚ
  y_offset : ℚ
  key : String
  deriving DecidableEq, Repr

/-- BoshAdderMod controller fields; `newRiders` is the persistent
`this.newRiders` buffer (reset to `[]` at the end of every recompute). -/
structure BoshModM where
  state : BoshState
  track : Track
  changed : Bool
  newRiders : List RiderRec
  deriving DecidableEq, Repr

/-- Constructor, source lines 59-76. -/
def BoshAdderMod.init (store : RiderStore) (initState : BoshState) : BoshModM :=
  { state := initState, track := store.committedEngine,
    changed := false, newRiders := [] }

/-- One rider of the placement grid (source lines 171-184): position
`(x_init + x + ix*x_offset, y_init + y + iy*y_offset)`, with the `key` field
only when `state.key` is truthy. -/
def BoshAdderMod.mkRider (s : BoshState) (ix iy : Nat) : RiderRec :=
  { startPosition :=
      ⟨s.x_init + s.x + (ix : ℚ) * s.x_offset, s.y_init + s.y + (iy : ℚ) * s.y_offset⟩
    startVelocity := ⟨s.x_velocity, s.y_velocity⟩
    remountable := 1
    createdUsingMod := false
    key := if s.key != "" then some s.key else none }

/-- Body of the nested placement loop (source lines 169-191): before each push,
`state.riderCount` is refreshed from the committed riders plus the pending new
riders, and the push happens only while `riderCount < maxRiders`. -/
def BoshAdderMod.placeLoop (committedLen : Nat) (x_riders y_riders : Int)
    (start : BoshState × List RiderRec) : BoshState × List RiderRec :=
  (List.range y_riders.toNat).foldl (fun accY iy =>
    (List.range x_riders.toNat).foldl (fun acc ix =>
      match acc with
      | (s, nr) =>
        let newRider := BoshAdderMod.mkRider s ix iy
        let s2 := { s with riderCount := (committedLen : Int) + (nr.length : Int) }
        if s2.riderCount < s2.maxRiders then (s2, nr ++ [newRider]) else (s2, nr))
      accY) start

/-- Track-reference check of `onUpdate` (source lines 120-129): while active,
compare the cached committed-engine reference with the current one; on
mismatch adopt it, mark dirty, and dispatch an immediate revert (line 127). -/
def BoshAdderMod.trackCheck (m : BoshModM) (store : RiderStore) (st0 : BoshState) :
    Track × Bool × List StoreAction :=
  if st0.active then
    let track := store.committedEngine
    if m.track.tid != track.tid then
      (track, true, [StoreAction.revertTrackChanges])
    else (m.track, false, ([] : List StoreAction))
  else (m.track, false, ([] : List StoreAction))

/-- Recompute block of `onUpdate` (source lines 146-191 up to the dispatch):
derive `x_init`/`y_init` from the last line or zero them, pick the grid
dimensions, and run the placement loop. -/
def BoshAdderMod.recompute (st0 : BoshState) (tr : Track)
    (committed_riders newRiders : List RiderRec) : BoshState × List RiderRec :=
  let allLines := tr.lines
  let st1 :=
    if allLines.length > 0 && st0.useLastLine then
      match allLines.getLast? with
      | some lastLine => { st0 with x_init := lastLine.x2, y_init := lastLine.y2 }
      | none => st0
    else st0
  let st2 := if !st1.useLastLine then { st1 with x_init := 0, y_init := 0 } else st1
  let x_riders : Int := if st2.multipleRiders then st2.multi_rider_x else 1
  let y_riders : Int := if st2.multipleRiders then st2.multi_rider_y else 1
  BoshAdderMod.placeLoop committed_riders.length x_riders y_riders (st2, newRiders)

/-- Source lines 102-199: `BoshAdderMod.onUpdate(nextState)`.  The
`window.previewLinesInFastSelect` toggling (lines 106-112) is a host flag and
is not modelled. -/
def BoshAdderMod.onUpdate (m : BoshModM) (store : RiderStore)
    (nextState : BoshState) : BoshModM × List StoreAction :=
  let su1 := m.state.sid != nextState.sid
  let st0 := if su1 then nextState else m.state
  let trackStep := BoshAdderMod.trackCheck m store st0
  let tr := trackStep.1
  let su2 := trackStep.2.1
  let actsTrack := trackStep.2.2
  let shouldUpdate := su1 || su2
  if !shouldUpdate then
    ({ state := st0, track := tr, changed := m.changed, newRiders := m.newRiders },
      actsTrack)
  else
    let acts1 := actsTrack ++ (if m.changed then [StoreAction.revertTrackChanges] else [])
    let ch1 := if m.changed then false else m.changed
    if !st0.active then
      ({ state := st0, track := tr, changed := ch1, newRiders := m.newRiders }, acts1)
    else
      let committed_riders := store.committedEngine.riders
      let placed := BoshAdderMod.recompute st0 tr committed_riders m.newRiders
      let st3 := placed.1
      let nrFinal := placed.2
      let actsDispatch :=
        if nrFinal.length > 0 then
          [StoreAction.setRiders (committed_riders ++ nrFinal)]
        else []
      let st4 := { st3 with
        riderCount := (committed_riders.length : Int) + (nrFinal.length : Int) }
      ({ state := st4, track := tr, changed := true, newRiders := [] },
        acts1 ++ actsDispatch)

/-- Source lines 86-93: `BoshAdderMod.commit()`; returns `true` or JS
`undefined` (modelled as `none`). -/
def BoshAdderMod.commit (m : BoshModM) : BoshModM × List StoreAction × Option Bool :=
  if m.changed then
    ({ m with changed := false },
      [StoreAction.commitTrackChanges, StoreAction.revertTrackChanges], some true)
  else (m, [], none)

/-! ## At-most-one-uncommitted-edit invariant (reachable states) -/

/-- Does an action dispatch a new uncommitted preview edit on the scratch
layer (`SET_RIDERS` / `UPDATE_LINES`)? -/
def isPreviewEdit : StoreAction → Bool
  | .setRiders _ => true
  | .setLines _ => true
  | _ => false

/-- Number of uncommitted preview edits outstanding after one action:
`REVERT_TRACK_CHANGES` discards the scratch layer, `COMMIT_TRACK_CHANGES`
bakes it into history (leaving zero uncommitted), a preview dispatch stacks
one more, everything else leaves the count. -/
def stepOutstanding (n : Nat) (a : StoreAction) : Nat :=
  match a with
  | .revertTrackChanges => 0
  | .commitTrackChanges => 0
  | a => if isPreviewEdit a then n + 1 else n

/-- Outstanding uncommitted edits after a whole dispatch trace. -/
def outstandingAfter (n : Nat) (tr : List StoreAction) : Nat :=
  tr.foldl stepOutstanding n

/-- Check that at every prefix of the dispatch trace (including the empty and
the full prefix) at most one uncommitted preview edit is outstanding. -/
def traceBounded : Nat → List StoreAction → Bool
  | n, [] => decide (n ≤ 1)
  | n, a :: rest => decide (n ≤ 1) && traceBounded (stepOutstanding n a) rest

theorem traceBounded_self (n : Nat) (tr : List StoreAction) :
    traceBounded n tr = (decide (n ≤ 1) && traceBounded n tr) := by
  cases tr with
  | nil => simp [traceBounded]
  | cons a rest =>
    rw [traceBounded, ← Bool.and_assoc, Bool.and_self]

theorem traceBounded_append :
    ∀ (t1 : List StoreAction) (n : Nat) (t2 : List StoreAction),
      traceBounded n (t1 ++ t2)
        = (traceBounded n t1 && traceBounded (outstandingAfter n t1) t2)
  | [], n, t2 => by
      rw [List.nil_append]
      rw [show traceBounded n [] = decide (n ≤ 1) from rfl]
      rw [show outstandingAfter n [] = n from rfl]
      exact traceBounded_self n t2
  | a :: t1, n, t2 => by
      rw [List.cons_append, traceBounded, traceBounded,
        traceBounded_append t1 (stepOutstanding n a) t2, Bool.and_assoc]
      rfl

/-- Consistency between a controller's `changed` flag and the number of
outstanding uncommitted edits: never more than one, and none when the flag is
clear. -/
def modInv (changed : Bool) (out : Nat) : Prop :=
  out ≤ 1 ∧ (changed = false → out = 0)

theorem riderMod_onUpdate_step (m : RiderModM) (store : RiderStore)
    (next : RiderModState) (out : Nat) (h : modInv m.changed out) :
    traceBounded out (RiderMod.onUpdate m store next).2 = true ∧
      modInv (RiderMod.onUpdate m store next).1.changed
        (outstandingAfter out (RiderMod.onUpdate m store next).2) := by
  obtain ⟨h1, h2⟩ := h
  by_cases hsid : m.state.sid = next.sid <;>
    by_cases hsa : m.state.active = true <;>
    by_cases hna : next.active = true <;>
    by_cases htid : m.track.tid = store.committedEngine.tid <;>
    by_cases hch : m.changed = true <;>
    simp_all [RiderMod.onUpdate, traceBounded, stepOutstanding, isPreviewEdit,
      outstandingAfter, modInv]

theorem riderMod_commit_step (m : RiderModM) (out : Nat) (h : modInv m.changed out) :
    traceBounded out (RiderMod.commit m).2.1 = true ∧
      modInv (RiderMod.commit m).1.changed
        (outstandingAfter out (RiderMod.commit m).2.1) := by
  obtain ⟨h1, h2⟩ := h
  by_cases hch : m.changed = true <;>
    simp_all [RiderMod.commit, traceBounded, stepOutstanding, isPreviewEdit,
      outstandingAfter, modInv]

set_option maxHeartbeats 1000000 in
theorem skewMod_onUpdate_traceSpec (m : SkewModM) (store : SkewStore)
    (next : SkewState) :
    ((SkewMod.onUpdate m store next).2 = [] ∧
        (SkewMod.onUpdate m store next).1.changed = m.changed) ∨
      ((SkewMod.onUpdate m store next).1.changed = false ∧
        (SkewMod.onUpdate m store next).2
          = (if m.changed then
              [StoreAction.revertTrackChanges, StoreAction.setEditScene]
            else [])) ∨
      ((SkewMod.onUpdate m store next).1.changed = true ∧
        ∃ ls, (SkewMod.onUpdate m store next).2
          = (if m.changed then
              [StoreAction.revertTrackChanges, StoreAction.setEditScene]
            else [])
            ++ [StoreAction.setLines ls, StoreAction.setEditScene]) := by
  unfold SkewMod.onUpdate
  dsimp only
  (repeat' split) <;>
    simp_all [List.append_assoc]

theorem skewMod_onUpdate_step (m : SkewModM) (store : SkewStore)
    (next : SkewState) (out : Nat) (h : modInv m.changed out) :
    traceBounded out (SkewMod.onUpdate m store next).2 = true ∧
      modInv (SkewMod.onUpdate m store next).1.changed
        (outstandingAfter out (SkewMod.onUpdate m store next).2) := by
  obtain ⟨h1, h2⟩ := h
  rcases skewMod_onUpdate_traceSpec m store next with ⟨ht, hc⟩ | ⟨hc, ht⟩ | ⟨hc, ls, ht⟩ <;>
    rw [ht, hc] <;>
    by_cases hch : m.changed = true <;>
    simp_all [traceBounded, stepOutstanding, isPreviewEdit, outstandingAfter, modInv]

theorem skewMod_commit_step (m : SkewModM) (out : Nat) (h : modInv m.changed out) :
    traceBounded out (SkewMod.commit m).2.1 = true ∧
      modInv (SkewMod.commit m).1.changed
        (outstandingAfter out (SkewMod.commit m).2.1) := by
  obtain ⟨h1, h2⟩ := h
  by_cases hch : m.changed = true <;>
    simp_all [SkewMod.commit, traceBounded, stepOutstanding, isPreviewEdit,
      outstandingAfter, modInv]

theorem boshAdderMod_trackCheck_spec (m : BoshModM) (store : RiderStore)
    (st0 : BoshState) :
    ((BoshAdderMod.trackCheck m store st0).2.1 = false ∧
        (BoshAdderMod.trackCheck m store st0).2.2 = []) ∨
      ((BoshAdderMod.trackCheck m store st0).2.1 = true ∧
        (BoshAdderMod.trackCheck m store st0).2.2
          = [StoreAction.revertTrackChanges]) := by
  unfold BoshAdderMod.trackCheck
  dsimp only
  (repeat' split) <;> simp

theorem boshAdderMod_trackCheck_inactive (m : BoshModM) (store : RiderStore)
    (st0 : BoshState) (h : st0.active = false) :
    (BoshAdderMod.trackCheck m store st0).2.1 = false := by
  simp [BoshAdderMod.trackCheck, h]

theorem boshAdderMod_onUpdate_traceSpec (m : BoshModM) (store : RiderStore)
    (next : BoshState) :
    ((BoshAdderMod.onUpdate m store next).2 = [] ∧
        (BoshAdderMod.onUpdate m store next).1.changed = m.changed) ∨
      ((BoshAdderMod.onUpdate m store next).1.changed = false ∧
        (BoshAdderMod.onUpdate m store next).2
          = (if m.changed then [StoreAction.revertTrackChanges] else [])) ∨
      ((BoshAdderMod.onUpdate m store next).1.changed = true ∧
        ∃ (b : Bool) (rs : List RiderRec) (d : Bool),
          (BoshAdderMod.onUpdate m store next).2
            = (if b then [StoreAction.revertTrackChanges] else [])
              ++ (if m.changed then [StoreAction.revertTrackChanges] else [])
              ++ (if d then [StoreAction.setRiders rs] else [])) := by
  unfold BoshAdderMod.onUpdate
  dsimp only
  rcases boshAdderMod_trackCheck_spec m store
      (if (m.state.sid != next.sid) = true then next else m.state) with
    ⟨hsu, hacts⟩ | ⟨hsu, hacts⟩ <;>
    rw [hsu, hacts] <;>
    (repeat' split) <;>
    first
      | (left; exact ⟨rfl, rfl⟩)
      | (right; left; exact ⟨rfl, rfl⟩)
      | (right; right; exact ⟨rfl, true, _, true, rfl⟩)
      | (right; right; exact ⟨rfl, false, _, true, rfl⟩)
      | (right; right; exact ⟨rfl, true, [], false, rfl⟩)
      | (right; right; exact ⟨rfl, false, [], false, rfl⟩)
      | (exfalso; simp_all; done)
      | (exfalso; revert hsu; simp [BoshAdderMod.trackCheck, *]; done)
      | (exfalso; simp_all [BoshAdderMod.trackCheck]; done)

theorem boshAdderMod_onUpdate_step (m : BoshModM) (store : RiderStore)
    (next : BoshState) (out : Nat) (h : modInv m.changed out) :
    traceBounded out (BoshAdderMod.onUpdate m store next).2 = true ∧
      modInv (BoshAdderMod.onUpdate m store next).1.changed
        (outstandingAfter out (BoshAdderMod.onUpdate m store next).2) := by
  obtain ⟨h1, h2⟩ := h
  rcases boshAdderMod_onUpdate_traceSpec m store next with
      ⟨ht, hc⟩ | ⟨hc, ht⟩ | ⟨hc, b, rs, d, ht⟩ <;>
    rw [ht, hc] <;>
    by_cases hch : m.changed = true <;>
    first
      | exact ⟨by simp [traceBounded, h1], h1, h2⟩
      | (cases b <;> cases d <;>
          simp_all [traceBounded, stepOutstanding, isPreviewEdit, outstandingAfter,
            modInv])
      | simp_all [traceBounded, stepOutstanding, isPreviewEdit, outstandingAfter,
          modInv]

theorem boshAdderMod_commit_step (m : BoshModM) (out : Nat) (h : modInv m.changed out) :
    traceBounded out (BoshAdderMod.commit m).2.1 = true ∧
      modInv (BoshAdderMod.commit m).1.changed
        (outstandingAfter out (BoshAdderMod.commit m).2.1) := by
  obtain ⟨h1, h2⟩ := h
  by_cases hch : m.changed = true <;>
    simp_all [BoshAdderMod.commit, traceBounded, stepOutstanding, isPreviewEdit,
      outstandingAfter, modInv]

/-! ## Event sequences: reconciliation passes and commits -/

/-- An external event for RiderMod: a store change / config update handed to
`onUpdate`, or a user commit. -/
inductive RiderEvent where
  | updateEv (store : RiderStore) (next : RiderModState)
  | commitEv

/-- An external event for the skew mod. -/
inductive SkewEvent where
  | updateEv (store : SkewStore) (next : SkewState)
  | commitEv

/-- An external event for BoshAdderMod. -/
inductive BoshEvent where
  | updateEv (store : RiderStore) (next : BoshState)
  | commitEv

def RiderMod.runEvent (m : RiderModM) : RiderEvent → RiderModM × List StoreAction
  | .updateEv store next => RiderMod.onUpdate m store next
  | .commitEv => ((RiderMod.commit m).1, (RiderMod.commit m).2.1)

def SkewMod.runEvent (m : SkewModM) : SkewEvent → SkewModM × List StoreAction
  | .updateEv store next => SkewMod.onUpdate m store next
  | .commitEv => ((SkewMod.commit m).1, (SkewMod.commit m).2.1)

def BoshAdderMod.runEvent (m : BoshModM) : BoshEvent → BoshModM × List StoreAction
  | .updateEv store next => BoshAdderMod.onUpdate m store next
  | .commitEv => ((BoshAdderMod.commit m).1, (BoshAdderMod.commit m).2.1)

/-- Run a sequence of events, accumulating the cumulative dispatch trace. -/
def RiderMod.run (m : RiderModM) : List RiderEvent → RiderModM × List StoreAction
  | [] => (m, [])
  | e :: es =>
    let step := RiderMod.runEvent m e
    let rest := RiderMod.run step.1 es
    (rest.1, step.2 ++ rest.2)

def SkewMod.run (m : SkewModM) : List SkewEvent → SkewModM × List StoreAction
  | [] => (m, [])
  | e :: es =>
    let step := SkewMod.runEvent m e
    let rest := SkewMod.run step.1 es
    (rest.1, step.2 ++ rest.2)

def BoshAdderMod.run (m : BoshModM) : List BoshEvent → BoshModM × List StoreAction
  | [] => (m, [])
  | e :: es =>
    let step := BoshAdderMod.runEvent m e
    let rest := BoshAdderMod.run step.1 es
    (rest.1, step.2 ++ rest.2)

theorem riderMod_runEvent_step (m : RiderModM) (e : RiderEvent) (out : Nat)
    (h : modInv m.changed out) :
    traceBounded out (RiderMod.runEvent m e).2 = true ∧
      modInv (RiderMod.runEvent m e).1.changed
        (outstandingAfter out (RiderMod.runEvent m e).2) := by
  cases e with
  | updateEv store next => exact riderMod_onUpdate_step m store next out h
  | commitEv => exact riderMod_commit_step m out h

theorem skewMod_runEvent_step (m : SkewModM) (e : SkewEvent) (out : Nat)
    (h : modInv m.changed out) :
    traceBounded out (SkewMod.runEvent m e).2 = true ∧
      modInv (SkewMod.runEvent m e).1.changed
        (outstandingAfter out (SkewMod.runEvent m e).2) := by
  cases e with
  | updateEv store next => exact skewMod_onUpdate_step m store next out h
  | commitEv => exact skewMod_commit_step m out h

theorem boshAdderMod_runEvent_step (m : BoshModM) (e : BoshEvent) (out : Nat)
    (h : modInv m.changed out) :
    traceBounded out (BoshAdderMod.runEvent m e).2 = true ∧
      modInv (BoshAdderMod.runEvent m e).1.changed
        (outstandingAfter out (BoshAdderMod.runEvent m e).2) := by
  cases e with
  | updateEv store next => exact boshAdderMod_onUpdate_step m store next out h
  | commitEv => exact boshAdderMod_commit_step m out h

theorem riderMod_run_inv :
    ∀ (es : List RiderEvent) (m : RiderModM) (out : Nat), modInv m.changed out →
      traceBounded out (RiderMod.run m es).2 = true ∧
        modInv (RiderMod.run m es).1.changed
          (outstandingAfter out (RiderMod.run m es).2)
  | [], m, out, h =>
      ⟨by simpa [RiderMod.run, traceBounded] using h.1,
        by simpa [RiderMod.run, outstandingAfter] using h⟩
  | e :: es, m, out, h => by
      have hstep := riderMod_runEvent_step m e out h
      have hrest := riderMod_run_inv es (RiderMod.runEvent m e).1
        (outstandingAfter out (RiderMod.runEvent m e).2) hstep.2
      simp only [RiderMod.run]
      constructor
      · rw [traceBounded_append, hstep.1, hrest.1]
        rfl
      · have : outstandingAfter out
            ((RiderMod.runEvent m e).2 ++ (RiderMod.run (RiderMod.runEvent m e).1 es).2)
            = outstandingAfter (outstandingAfter out (RiderMod.runEvent m e).2)
              (RiderMod.run (RiderMod.runEvent m e).1 es).2 := by
          simp [outstandingAfter, List.foldl_append]
        rw [this]
        exact hrest.2

theorem skewMod_run_inv :
    ∀ (es : List SkewEvent) (m : SkewModM) (out : Nat), modInv m.changed out →
      traceBounded out (SkewMod.run m es).2 = true ∧
        modInv (SkewMod.run m es).1.changed
          (outstandingAfter out (SkewMod.run m es).2)
  | [], m, out, h =>
      ⟨by simpa [SkewMod.run, traceBounded] using h.1,
        by simpa [SkewMod.run, outstandingAfter] using h⟩
  | e :: es, m, out, h => by
      have hstep := skewMod_runEvent_step m e out h
      have hrest := skewMod_run_inv es (SkewMod.runEvent m e).1
        (outstandingAfter out (SkewMod.runEvent m e).2) hstep.2
      simp only [SkewMod.run]
      constructor
      · rw [traceBounded_append, hstep.1, hrest.1]
        rfl
      · have : outstandingAfter out
            ((SkewMod.runEvent m e).2 ++ (SkewMod.run (SkewMod.runEvent m e).1 es).2)
            = outstandingAfter (outstandingAfter out (SkewMod.runEvent m e).2)
              (SkewMod.run (SkewMod.runEvent m e).1 es).2 := by
          simp [outstandingAfter, List.foldl_append]
        rw [this]
        exact hrest.2

theorem boshAdderMod_run_inv :
    ∀ (es : List BoshEvent) (m : BoshModM) (out : Nat), modInv m.changed out →
      traceBounded out (BoshAdderMod.run m es).2 = true ∧
        modInv (BoshAdderMod.run m es).1.changed
          (outstandingAfter out (BoshAdderMod.run m es).2)
  | [], m, out, h =>
      ⟨by simpa [BoshAdderMod.run, traceBounded] using h.1,
        by simpa [BoshAdderMod.run, outstandingAfter] using h⟩
  | e :: es, m, out, h => by
      have hstep := boshAdderMod_runEvent_step m e out h
      have hrest := boshAdderMod_run_inv es (BoshAdderMod.runEvent m e).1
        (outstandingAfter out (BoshAdderMod.runEvent m e).2) hstep.2
      simp only [BoshAdderMod.run]
      constructor
      · rw [traceBounded_append, hstep.1, hrest.1]
        rfl
      · have : outstandingAfter out
            ((BoshAdderMod.runEvent m e).2
              ++ (BoshAdderMod.run (BoshAdderMod.runEvent m e).1 es).2)
            = outstandingAfter (outstandingAfter out (BoshAdderMod.runEvent m e).2)
              (BoshAdderMod.run (BoshAdderMod.runEvent m e).1 es).2 := by
          simp [outstandingAfter, List.foldl_append]
        rw [this]
        exact hrest.2

/-- C4: starting from a freshly constructed controller and running any
sequence of reconciliation passes (`onUpdate` with arbitrary stores and
configurations) and commits, at most one uncommitted preview edit is ever
outstanding: at every prefix of the cumulative dispatch trace the number of
stacked preview edits is at most one, for all three mods (a pass always
reverts the existing preview before dispatching a new one). -/
theorem at_most_one_uncommitted_preview
    (storeR : RiderStore) (initR : RiderModState) (esR : List RiderEvent)
    (storeS : SkewStore) (initS : SkewState) (esS : List SkewEvent)
    (storeB : RiderStore) (initB : BoshState) (esB : List BoshEvent) :
    traceBounded 0 (RiderMod.run (RiderMod.init storeR initR) esR).2 = true ∧
      traceBounded 0 (SkewMod.run (SkewMod.init storeS initS) esS).2 = true ∧
      traceBounded 0 (BoshAdderMod.run (BoshAdderMod.init storeB initB) esB).2 = true :=
  ⟨(riderMod_run_inv esR (RiderMod.init storeR initR) 0 ⟨by omega, fun _ => rfl⟩).1,
    (skewMod_run_inv esS (SkewMod.init storeS initS) 0 ⟨by omega, fun _ => rfl⟩).1,
    (boshAdderMod_run_inv esB (BoshAdderMod.init storeB initB) 0
      ⟨by omega, fun _ => rfl⟩).1⟩

/-! ## Commit bridge (claim C5) -/

/-- Concrete idle (unchanged) skew controller. -/
def skewIdleM : SkewModM :=
  { state := ⟨0, false, 0, 0, 1, 1, 1, 0⟩
    track := ⟨0, [], []⟩
    selectedPoints := []
    changed := false }

/-- C5 counterexample: `SkewMod.commit` with no outstanding edit falls off the
end of the function and returns JS `undefined` (modelled `none`), not `false`
as the claim states. -/
theorem skew_commit_returns_undefined_counterexample :
    (SkewMod.commit skewIdleM).2.2 = none ∧ (none : Option Bool) ≠ some false :=
  ⟨rfl, by decide⟩

/-- C5 (amended): both commits dispatch COMMIT_TRACK_CHANGES immediately
followed by REVERT_TRACK_CHANGES exactly when the changed flag is set, return
a truthy value (`true`) exactly when something was committed, leave the state
untouched with no dispatch otherwise, and always end with the changed flag
clear; on the nothing-to-commit path RiderMod returns `false` while SkewMod
returns `undefined` (`none`). -/
theorem commit_dispatches_pair_iff_changed (mR : RiderModM) (mS : SkewModM) :
    ((RiderMod.commit mR).2.1
        = (if mR.changed then
            [StoreAction.commitTrackChanges, StoreAction.revertTrackChanges]
          else []) ∧
      (RiderMod.commit mR).2.2 = mR.changed ∧
      (RiderMod.commit mR).1
        = (if mR.changed then { mR with changed := false } else mR) ∧
      (RiderMod.commit mR).1.changed = false) ∧
    ((SkewMod.commit mS).2.1
        = (if mS.changed then
            [StoreAction.commitTrackChanges, StoreAction.revertTrackChanges,
              StoreAction.setEditScene]
          else []) ∧
      (SkewMod.commit mS).2.2 = (if mS.changed then some true else none) ∧
      (SkewMod.commit mS).1
        = (if mS.changed then { mS with changed := false } else mS) ∧
      (SkewMod.commit mS).1.changed = false) := by
  constructor
  · cases hch : mR.changed <;>
      simp [RiderMod.commit, hch]
  · cases hch : mS.changed <;>
      simp [SkewMod.commit, hch]

/-! ## Deactivation reverts (claim C6) -/

/-- Number of REVERT_TRACK_CHANGES dispatches in a trace. -/
def countReverts (tr : List StoreAction) : Nat :=
  tr.countP (fun a => decide (a = StoreAction.revertTrackChanges))

/-- C6: on an onUpdate transition whose configuration goes from active to
inactive (necessarily a fresh config object, hence a distinct reference),
exactly one REVERT_TRACK_CHANGES is dispatched when an uncommitted preview
edit existed and zero otherwise — for all three mods. -/
theorem deactivation_reverts_exactly_once
    (mR : RiderModM) (storeR : RiderStore) (nextR : RiderModState)
    (mS : SkewModM) (storeS : SkewStore) (nextS : SkewState)
    (mB : BoshModM) (storeB : RiderStore) (nextB : BoshState)
    (hRa : mR.state.active = true) (hRn : nextR.active = false)
    (hRs : mR.state.sid ≠ nextR.sid)
    (hSa : mS.state.active = true) (hSn : nextS.active = false)
    (hSs : mS.state.sid ≠ nextS.sid)
    (hBa : mB.state.active = true) (hBn : nextB.active = false)
    (hBs : mB.state.sid ≠ nextB.sid) :
    countReverts (RiderMod.onUpdate mR storeR nextR).2
        = (if mR.changed then 1 else 0) ∧
      countReverts (SkewMod.onUpdate mS storeS nextS).2
        = (if mS.changed then 1 else 0) ∧
      countReverts (BoshAdderMod.onUpdate mB storeB nextB).2
        = (if mB.changed then 1 else 0) := by
  refine ⟨?_, ?_, ?_⟩
  · cases hch : mR.changed <;>
      simp [RiderMod.onUpdate, countReverts, hRs, hRn, hch]
  · cases hch : mS.changed <;>
      simp [SkewMod.onUpdate, countReverts, hSs, hSn, hch]
  · cases hch : mB.changed <;>
      simp [BoshAdderMod.onUpdate, BoshAdderMod.trackCheck, countReverts, hBs, hBn, hch]

/-! ## Reference-identity change detection (claim C7) -/

/-- C7: while active, an onUpdate pass with an unchanged configuration treats
the host track as changed exactly by reference identity: the very same
reference is never treated as changed (the pass is a complete no-op), while a
reference-distinct committed engine — regardless of its content, including
value-identical content — is adopted into the cache and triggers the dirty
path (for the skew mod, observable as the adopted cache plus the revert of any
outstanding preview).  No content of the track is ever inspected. -/
theorem reference_identity_change_detection
    (mR : RiderModM) (sR : RiderStore)
    (mS : SkewModM) (sS : SkewStore)
    (mB : BoshModM) (sB : RiderStore) :
    (mR.state.active = true →
      (mR.track = sR.committedEngine → RiderMod.onUpdate mR sR mR.state = (mR, [])) ∧
      (mR.track.tid ≠ sR.committedEngine.tid →
        (RiderMod.onUpdate mR sR mR.state).1.track = sR.committedEngine ∧
          (RiderMod.onUpdate mR sR mR.state).2 ≠ [])) ∧
    (mS.state.active = true →
      (mS.track = sS.committedEngine →
        setsEqualB mS.selectedPoints
          (if !sS.selectTool.multi then [] else sS.selectTool.selectedPoints) = true →
        SkewMod.onUpdate mS sS mS.state = (mS, [])) ∧
      (mS.track.tid ≠ sS.committedEngine.tid →
        (SkewMod.onUpdate mS sS mS.state).1.track = sS.committedEngine ∧
          (mS.changed = true → (SkewMod.onUpdate mS sS mS.state).2 ≠ []))) ∧
    (mB.state.active = true →
      (mB.track = sB.committedEngine → BoshAdderMod.onUpdate mB sB mB.state = (mB, [])) ∧
      (mB.track.tid ≠ sB.committedEngine.tid →
        (BoshAdderMod.onUpdate mB sB mB.state).1.track = sB.committedEngine ∧
          (BoshAdderMod.onUpdate mB sB mB.state).2 ≠ [])) := by
  refine ⟨fun ha => ⟨?_, ?_⟩, fun ha => ⟨?_, ?_⟩, fun ha => ⟨?_, ?_⟩⟩
  · intro hsame
    simp [RiderMod.onUpdate, ← hsame, ha]
  · intro hdiff
    have hb : (mR.track.tid != sR.committedEngine.tid) = true := by
      simpa using hdiff
    cases hch : mR.changed <;>
      simp [RiderMod.onUpdate, ha, hb, hch]
  · intro hsame hsel
    have hsel2 : setsEqualB mS.selectedPoints
        (if sS.selectTool.multi = false then [] else sS.selectTool.selectedPoints)
          = true := by
      simpa using hsel
    have hac : SkewMod.activeChecks mS sS mS.state
        = (mS.track, false, mS.selectedPoints, false) := by
      simp [SkewMod.activeChecks, ← hsame, ha, hsel2]
    simp [SkewMod.onUpdate, hac]
  · intro hdiff
    have hb : (mS.track.tid != sS.committedEngine.tid) = true := by
      simpa using hdiff
    have hac1 : (SkewMod.activeChecks mS sS mS.state).1 = sS.committedEngine := by
      simp [SkewMod.activeChecks, ha, hb]
    have hac2 : (SkewMod.activeChecks mS sS mS.state).2.1 = true := by
      simp [SkewMod.activeChecks, ha, hb]
    constructor
    · simp only [SkewMod.onUpdate]
      (repeat' split) <;> simp_all
    · intro hch
      simp only [SkewMod.onUpdate]
      (repeat' split) <;> simp_all [hch]
  · intro hsame
    simp [BoshAdderMod.onUpdate, BoshAdderMod.trackCheck, ← hsame, ha]
  · intro hdiff
    have hb : (mB.track.tid != sB.committedEngine.tid) = true := by
      simpa using hdiff
    cases hch : mB.changed <;>
      simp [BoshAdderMod.onUpdate, BoshAdderMod.trackCheck, ha, hb, hch]

/-! ## Concrete controllers for witnesses and the grid-placement example -/

/-- A committed engine object. -/
def trackA : Track := ⟨1, [], []⟩

/-- A reference-distinct committed engine with content identical to `trackA`. -/
def trackB : Track := ⟨2, [], []⟩

def riderStA : RiderModState := ⟨0, true, 0, 0, 0, 0, 1, 0, 0⟩

def riderStI : RiderModState := ⟨1, false, 0, 0, 0, 0, 1, 0, 0⟩

def riderActiveM : RiderModM := ⟨riderStA, trackA, true⟩

def riderStoreA : RiderStore := ⟨trackA⟩

def riderStoreB : RiderStore := ⟨trackB⟩

def skewStA : SkewState := ⟨0, true, 0, 0, 1, 1, 1, 0⟩

def skewStI : SkewState := ⟨1, false, 0, 0, 1, 1, 1, 0⟩

def skewActiveM : SkewModM := ⟨skewStA, trackA, [], true⟩

def skewStoreA : SkewStore := ⟨trackA, ⟨[], false⟩, 1⟩

def skewStoreB : SkewStore := ⟨trackB, ⟨[], false⟩, 1⟩

def boshStA : BoshState := ⟨0, true, false, true, 10, 0, 0, 0, 0, 0, 2/5, 0, 2, 1, 10, 10, ""⟩

def boshStI : BoshState := { boshStA with sid := 1, active := false }

def boshActiveM : BoshModM := ⟨boshStA, trackA, true, []⟩

def boshStoreA : RiderStore := ⟨trackA⟩

def boshStoreB : RiderStore := ⟨trackB⟩

theorem deactivation_reverts_exactly_once_witness :
    (riderActiveM.state.active = true ∧ riderStI.active = false ∧
        riderActiveM.state.sid ≠ riderStI.sid ∧
        skewActiveM.state.active = true ∧ skewStI.active = false ∧
        skewActiveM.state.sid ≠ skewStI.sid ∧
        boshActiveM.state.active = true ∧ boshStI.active = false ∧
        boshActiveM.state.sid ≠ boshStI.sid) ∧
      (countReverts (RiderMod.onUpdate riderActiveM riderStoreA riderStI).2
          = (if riderActiveM.changed then 1 else 0) ∧
        countReverts (SkewMod.onUpdate skewActiveM skewStoreA skewStI).2
          = (if skewActiveM.changed then 1 else 0) ∧
        countReverts (BoshAdderMod.onUpdate boshActiveM boshStoreA boshStI).2
          = (if boshActiveM.changed then 1 else 0)) :=
  ⟨⟨rfl, rfl, by decide, rfl, rfl, by decide, rfl, rfl, by decide⟩,
    deactivation_reverts_exactly_once riderActiveM riderStoreA riderStI
      skewActiveM skewStoreA skewStI boshActiveM boshStoreA boshStI
      rfl rfl (by decide) rfl rfl (by decide) rfl rfl (by decide)⟩

theorem reference_identity_change_detection_witness :
    (RiderMod.onUpdate riderActiveM riderStoreA riderActiveM.state
        = (riderActiveM, []) ∧
      (RiderMod.onUpdate riderActiveM riderStoreB riderActiveM.state).1.track
        = trackB ∧
      (RiderMod.onUpdate riderActiveM riderStoreB riderActiveM.state).2 ≠ []) ∧
    (SkewMod.onUpdate skewActiveM skewStoreA skewActiveM.state
        = (skewActiveM, []) ∧
      (SkewMod.onUpdate skewActiveM skewStoreB skewActiveM.state).1.track
        = trackB ∧
      (SkewMod.onUpdate skewActiveM skewStoreB skewActiveM.state).2 ≠ []) ∧
    (BoshAdderMod.onUpdate boshActiveM boshStoreA boshActiveM.state
        = (boshActiveM, []) ∧
      (BoshAdderMod.onUpdate boshActiveM boshStoreB boshActiveM.state).1.track
        = trackB ∧
      (BoshAdderMod.onUpdate boshActiveM boshStoreB boshActiveM.state).2 ≠ []) := by
  have h1 := reference_identity_change_detection riderActiveM riderStoreA
    skewActiveM skewStoreA boshActiveM boshStoreA
  have h2 := reference_identity_change_detection riderActiveM riderStoreB
    skewActiveM skewStoreB boshActiveM boshStoreB
  refine ⟨⟨(h1.1 rfl).1 rfl, ?_, ?_⟩,
    ⟨(h1.2.1 rfl).1 rfl (by decide), ?_, ?_⟩,
    ⟨(h1.2.2 rfl).1 rfl, ?_, ?_⟩⟩
  · exact ((h2.1 rfl).2 (by decide)).1
  · exact ((h2.1 rfl).2 (by decide)).2
  · exact ((h2.2.1 rfl).2 (by decide)).1
  · exact ((h2.2.1 rfl).2 (by decide)).2 rfl
  · exact ((h2.2.2 rfl).2 (by decide)).1
  · exact ((h2.2.2 rfl).2 (by decide)).2

/-! ## Grid placement example (claim C9) -/

/-- Store with no committed riders and no lines. -/
def boshStoreEx : RiderStore := ⟨⟨0, [], []⟩⟩

/-- Inactive previous configuration. -/
def boshPrevEx : BoshState :=
  ⟨0, false, false, true, 10, 0, 0, 0, 0, 0, 2/5, 0, 2, 1, 10, 10, ""⟩

/-- The claim's configuration: 2 riders in x, 1 in y, position (0, 0),
offsets (10, 10), activated (a fresh config object). -/
def boshNextEx : BoshState :=
  ⟨1, true, false, true, 10, 0, 0, 0, 0, 0, 2/5, 0, 2, 1, 10, 10, ""⟩

def boshM0Ex : BoshModM := BoshAdderMod.init boshStoreEx boshPrevEx

/-- C9: with rider counts (2, 1), position (0, 0) and offsets (10, 10), the
recompute dispatches exactly one SET_RIDERS action carrying exactly two rider
records, one with start position (0, 0) and one with start position (10, 0). -/
theorem bosh_grid_two_riders :
    ∃ r1 r2 : RiderRec,
      (BoshAdderMod.onUpdate boshM0Ex boshStoreEx boshNextEx).2
          = [StoreAction.setRiders [r1, r2]] ∧
        r1.startPosition = ⟨0, 0⟩ ∧ r2.startPosition = ⟨10, 0⟩ := by
  refine ⟨_, _, rfl, ?_, ?_⟩ <;>
    simp [BoshAdderMod.onUpdate, BoshAdderMod.trackCheck, BoshAdderMod.recompute,
      BoshAdderMod.placeLoop, BoshAdderMod.mkRider, boshM0Ex, BoshAdderMod.init,
      boshStoreEx, boshPrevEx, boshNextEx] <;>
    norm_num [V2q.mk.injEq]

/-! ## getBoundingBox — src/mods/skew-mod.user.js lines 356-388 -/

/-- JS number for the bounding-box fold: NaN, infinities, or a finite value. -/
inductive JNum where
  | nan
  | ninf
  | fin (q : ℚ)
  | inf
  deriving DecidableEq, Repr

/-- `Math.min` on two JS numbers. -/
def jmin : JNum → JNum → JNum
  | .nan, _ => .nan
  | _, .nan => .nan
  | .ninf, _ => .ninf
  | _, .ninf => .ninf
  | .fin a, .fin b => .fin (min a b)
  | .fin a, .inf => .fin a
  | .inf, b => b

/-- `Math.max` on two JS numbers. -/
def jmax : JNum → JNum → JNum
  | .nan, _ => .nan
  | _, .nan => .nan
  | .inf, _ => .inf
  | _, .inf => .inf
  | .fin a, .fin b => .fin (max a b)
  | .fin a, .ninf => .fin a
  | .ninf, b => b

/-- IEEE subtraction on JS numbers (`Infinity - Infinity` is NaN). -/
def jsub : JNum → JNum → JNum
  | .nan, _ => .nan
  | _, .nan => .nan
  | .inf, .inf => .nan
  | .inf, _ => .inf
  | .ninf, .ninf => .nan
  | .ninf, _ => .ninf
  | .fin _, .inf => .ninf
  | .fin _, .ninf => .inf
  | .fin a, .fin b => .fin (a - b)

/-- A line as read by `getBoundingBox`: two endpoints with finite coordinates. -/
structure BBLine where
  p1 : V2q
  p2 : V2q
  deriving DecidableEq, Repr

/-- The JS value passed to `getBoundingBox`: its elements plus whether it is a
Set (which has a `size` property) or an Array (whose `size` is `undefined`). -/
structure JsLineColl where
  elems : List BBLine
  isSet : Bool
  deriving DecidableEq, Repr

/-- JS property read `lines.size`: `none` models `undefined` (Arrays have
`length`, not `size`). -/
def JsLineColl.sizeProp (c : JsLineColl) : Option Nat :=
  if c.isSet then some c.elems.length else none

/-- Result record of `getBoundingBox`. -/
structure BBox where
  x : JNum
  y : JNum
  width : JNum
  height : JNum
  deriving DecidableEq, Repr

/-- Loop body of `getBoundingBox` (source lines 370-380): fold both endpoints
into the running (minX, minY, maxX, maxY). -/
def bbFold (acc : JNum × JNum × JNum × JNum) (line : BBLine) :
    JNum × JNum × JNum × JNum :=
  let minX := jmin (.fin line.p1.x) acc.1
  let minY := jmin (.fin line.p1.y) acc.2.1
  let maxX := jmax (.fin line.p1.x) acc.2.2.1
  let maxY := jmax (.fin line.p1.y) acc.2.2.2
  let minX2 := jmin (.fin line.p2.x) minX
  let minY2 := jmin (.fin line.p2.y) minY
  let maxX2 := jmax (.fin line.p2.x) maxX
  let maxY2 := jmax (.fin line.p2.y) maxY
  (minX2, minY2, maxX2, maxY2)

/-- Source lines 356-388: `getBoundingBox(lines)`.  The guard is the literal
`lines.size === 0` (strict equality against the `size` property, which is
`undefined` for Arrays); accumulators start at plus/minus Infinity. -/
def getBoundingBox (lines : JsLineColl) : BBox :=
  if lines.sizeProp == some 0 then
    ⟨.fin 0, .fin 0, .fin 0, .fin 0⟩
  else
    let res := lines.elems.foldl bbFold (JNum.inf, JNum.inf, JNum.ninf, JNum.ninf)
    ⟨res.1, res.2.1, jsub res.2.2.1 res.1, jsub res.2.2.2 res.2.1⟩

/-- C10: evaluating `getBoundingBox` at the failing input — an empty JS Array,
which is what the only call site (line 131) passes — returns the Infinity box,
not the degenerate zero box; the zero-box guard only fires for an empty Set
(whose `size` is 0). -/
theorem getBoundingBox_empty_array_bug :
    getBoundingBox ⟨[], false⟩
        = ⟨JNum.inf, JNum.inf, JNum.ninf, JNum.ninf⟩ ∧
      getBoundingBox ⟨[], false⟩
        ≠ ⟨JNum.fin 0, JNum.fin 0, JNum.fin 0, JNum.fin 0⟩ ∧
      getBoundingBox ⟨[], true⟩
        = ⟨JNum.fin 0, JNum.fin 0, JNum.fin 0, JNum.fin 0⟩ :=
  ⟨rfl, by decide, rfl⟩
